import Mathlib

/-!
# Firepony: host/device mirroring of alignment batches, headers and sequence data

A shallow embedding of `device/alignment_data_device.h` and `sequence_data.h`.

* A `vector<system, T>` is a `List` of its elements; assignment from a host vector is a
  copy of the list and `clear()` leaves the empty list.
* Unsigned machine integers are natural numbers and `int32` is an integer; the embedded
  functions only copy and compare them, except for the generation counter, which is
  incremented modulo `2^32`.
* Mutating member functions are state passing: `download` takes the host object and the
  mirror before the call and returns the mirror after it.
* `operator[]` past the end of a vector is undefined behaviour in the source; the embedding
  makes it explicit with `Option`.
-/

namespace firepony

/-! ## Element types -/

abbrev uint8 := Nat
abbrev uint16 := Nat
abbrev uint32 := Nat
abbrev uint64 := Nat
abbrev int32 := Int

/-- Modelled from the spec: `packed_vector<system, W>` is declared in `types.h`, which is not
among the sources. It is a contiguous bit-packed buffer of machine words together with the
number of `W`-bit values stored in it. -/
structure packed_vector where
  storage : List uint32
  count : uint32
deriving DecidableEq, Repr

/-- Modelled from the spec: `clear()` of a packed vector empties it. -/
def packed_vector.clear : packed_vector :=
  { storage := [], count := 0 }

/-- The constants of the enumeration `AlignmentDataMask`, one per field group. The
enumeration is declared in `alignment_data.h`, which is not among the sources, so the
values are a parameter of `download`. -/
structure AlignmentDataMask where
  CHROMOSOME : uint32
  ALIGNMENT_START : uint32
  ALIGNMENT_STOP : uint32
  MATE_CHROMOSOME : uint32
  MATE_ALIGNMENT_START : uint32
  INFERRED_INSERT_SIZE : uint32
  CIGAR : uint32
  READS : uint32
  QUALITIES : uint32
  FLAGS : uint32
  MAPQ : uint32
  READ_GROUP : uint32
deriving DecidableEq, Repr

/-- The descriptor `CRQ_index`: the six values handed to its constructor by `crq_index`,
in that order. -/
structure CRQ_index where
  cigar_start : uint32
  cigar_len : uint32
  read_start : uint32
  read_len : uint32
  qual_start : uint32
  qual_len : uint32
deriving DecidableEq, Repr

/-- The members of `alignment_batch_storage<system>` that `alignment_batch_device` reads and
writes. The type of a CIGAR operation, `cigar_op`, is a parameter. Both the host batch
(`alignment_batch_host`) and the device mirror are of this shape. -/
structure alignment_batch_storage (cigar_op : Type) where
  num_reads : uint32
  max_read_size : uint32
  data_mask : uint32
  chromosome : List uint16
  alignment_start : List uint32
  alignment_stop : List uint32
  mate_chromosome : List uint32
  mate_alignment_start : List uint32
  inferred_insert_size : List int32
  cigars : List cigar_op
  cigar_start : List uint32
  cigar_len : List uint32
  reads : packed_vector
  read_start : List uint32
  read_len : List uint32
  qualities : List uint8
  qual_start : List uint32
  qual_len : List uint32
  flags : List uint16
  mapq : List uint8
  read_group : List uint32
deriving DecidableEq, Repr

/-- The host batch that `download` reads from. -/
abbrev alignment_batch_host (cigar_op : Type) := alignment_batch_storage cigar_op

/-- The device mirror: `alignment_batch_device<system>` adds no member to its base. -/
abbrev alignment_batch_device (cigar_op : Type) := alignment_batch_storage cigar_op

namespace alignment_batch_device

variable {cigar_op : Type}

/-- The member function `crq_index(read_id)`: six lookups at `read_id`; undefined (`none`)
when `read_id` is past the end of one of the six vectors. -/
def crq_index (d : alignment_batch_device cigar_op) (read_id : uint32) : Option CRQ_index := do
  let a ← d.cigar_start[read_id]?
  let b ← d.cigar_len[read_id]?
  let c ← d.read_start[read_id]?
  let e ← d.read_len[read_id]?
  let f ← d.qual_start[read_id]?
  let g ← d.qual_len[read_id]?
  pure (CRQ_index.mk a b c e f g)

/-- The three assignments that open `download`: `num_reads`, `max_read_size` and
`data_mask` are taken from the host. -/
def download_scalars (host : alignment_batch_host cigar_op)
    (d : alignment_batch_device cigar_op) : alignment_batch_device cigar_op :=
  { d with num_reads := host.num_reads, max_read_size := host.max_read_size,
           data_mask := host.data_mask }

/-- The statement `if (this->data_mask & AlignmentDataMask::CHROMOSOME)` of `download`:
copy the group from the host when the test is nonzero, `clear()` it otherwise. -/
def download_CHROMOSOME (K : AlignmentDataMask) (host : alignment_batch_host cigar_op)
    (d : alignment_batch_device cigar_op) : alignment_batch_device cigar_op :=
  if d.data_mask &&& K.CHROMOSOME ≠ 0
  then { d with chromosome := host.chromosome }
  else { d with chromosome := [] }

/-- The statement `if (this->data_mask & AlignmentDataMask::ALIGNMENT_START)` of `download`:
copy the group from the host when the test is nonzero, `clear()` it otherwise. -/
def download_ALIGNMENT_START (K : AlignmentDataMask) (host : alignment_batch_host cigar_op)
    (d : alignment_batch_device cigar_op) : alignment_batch_device cigar_op :=
  if d.data_mask &&& K.ALIGNMENT_START ≠ 0
  then { d with alignment_start := host.alignment_start }
  else { d with alignment_start := [] }

/-- The statement `if (this->data_mask & AlignmentDataMask::ALIGNMENT_STOP)` of `download`:
copy the group from the host when the test is nonzero, `clear()` it otherwise. -/
def download_ALIGNMENT_STOP (K : AlignmentDataMask) (host : alignment_batch_host cigar_op)
    (d : alignment_batch_device cigar_op) : alignment_batch_device cigar_op :=
  if d.data_mask &&& K.ALIGNMENT_STOP ≠ 0
  then { d with alignment_stop := host.alignment_stop }
  else { d with alignment_stop := [] }

/-- The statement `if (this->data_mask & AlignmentDataMask::MATE_CHROMOSOME)` of `download`:
copy the group from the host when the test is nonzero, `clear()` it otherwise. -/
def download_MATE_CHROMOSOME (K : AlignmentDataMask) (host : alignment_batch_host cigar_op)
    (d : alignment_batch_device cigar_op) : alignment_batch_device cigar_op :=
  if d.data_mask &&& K.MATE_CHROMOSOME ≠ 0
  then { d with mate_chromosome := host.mate_chromosome }
  else { d with mate_chromosome := [] }

/-- The statement `if (this->data_mask & AlignmentDataMask::MATE_ALIGNMENT_START)` of `download`:
copy the group from the host when the test is nonzero, `clear()` it otherwise. -/
def download_MATE_ALIGNMENT_START (K : AlignmentDataMask) (host : alignment_batch_host cigar_op)
    (d : alignment_batch_device cigar_op) : alignment_batch_device cigar_op :=
  if d.data_mask &&& K.MATE_ALIGNMENT_START ≠ 0
  then { d with mate_alignment_start := host.mate_alignment_start }
  else { d with mate_alignment_start := [] }

/-- The statement `if (this->data_mask & AlignmentDataMask::INFERRED_INSERT_SIZE)` of `download`:
copy the group from the host when the test is nonzero, `clear()` it otherwise. -/
def download_INFERRED_INSERT_SIZE (K : AlignmentDataMask) (host : alignment_batch_host cigar_op)
    (d : alignment_batch_device cigar_op) : alignment_batch_device cigar_op :=
  if d.data_mask &&& K.INFERRED_INSERT_SIZE ≠ 0
  then { d with inferred_insert_size := host.inferred_insert_size }
  else { d with inferred_insert_size := [] }

/-- The statement `if (this->data_mask & AlignmentDataMask::CIGAR)` of `download`:
copy the group from the host when the test is nonzero, `clear()` it otherwise. -/
def download_CIGAR (K : AlignmentDataMask) (host : alignment_batch_host cigar_op)
    (d : alignment_batch_device cigar_op) : alignment_batch_device cigar_op :=
  if d.data_mask &&& K.CIGAR ≠ 0
  then { d with cigars := host.cigars, cigar_start := host.cigar_start, cigar_len := host.cigar_len }
  else { d with cigars := [], cigar_start := [], cigar_len := [] }

/-- The statement `if (this->data_mask & AlignmentDataMask::READS)` of `download`:
copy the group from the host when the test is nonzero, `clear()` it otherwise. -/
def download_READS (K : AlignmentDataMask) (host : alignment_batch_host cigar_op)
    (d : alignment_batch_device cigar_op) : alignment_batch_device cigar_op :=
  if d.data_mask &&& K.READS ≠ 0
  then { d with reads := host.reads, read_start := host.read_start, read_len := host.read_len }
  else { d with reads := packed_vector.clear, read_start := [], read_len := [] }

/-- The statement `if (this->data_mask & AlignmentDataMask::QUALITIES)` of `download`:
copy the group from the host when the test is nonzero, `clear()` it otherwise. -/
def download_QUALITIES (K : AlignmentDataMask) (host : alignment_batch_host cigar_op)
    (d : alignment_batch_device cigar_op) : alignment_batch_device cigar_op :=
  if d.data_mask &&& K.QUALITIES ≠ 0
  then { d with qualities := host.qualities, qual_start := host.qual_start, qual_len := host.qual_len }
  else { d with qualities := [], qual_start := [], qual_len := [] }

/-- The statement `if (this->data_mask & AlignmentDataMask::FLAGS)` of `download`:
copy the group from the host when the test is nonzero, `clear()` it otherwise. -/
def download_FLAGS (K : AlignmentDataMask) (host : alignment_batch_host cigar_op)
    (d : alignment_batch_device cigar_op) : alignment_batch_device cigar_op :=
  if d.data_mask &&& K.FLAGS ≠ 0
  then { d with flags := host.flags }
  else { d with flags := [] }

/-- The statement `if (this->data_mask & AlignmentDataMask::MAPQ)` of `download`:
copy the group from the host when the test is nonzero, `clear()` it otherwise. -/
def download_MAPQ (K : AlignmentDataMask) (host : alignment_batch_host cigar_op)
    (d : alignment_batch_device cigar_op) : alignment_batch_device cigar_op :=
  if d.data_mask &&& K.MAPQ ≠ 0
  then { d with mapq := host.mapq }
  else { d with mapq := [] }

/-- The statement `if (this->data_mask & AlignmentDataMask::READ_GROUP)` of `download`:
copy the group from the host when the test is nonzero, `clear()` it otherwise. -/
def download_READ_GROUP (K : AlignmentDataMask) (host : alignment_batch_host cigar_op)
    (d : alignment_batch_device cigar_op) : alignment_batch_device cigar_op :=
  if d.data_mask &&& K.READ_GROUP ≠ 0
  then { d with read_group := host.read_group }
  else { d with read_group := [] }

/-- The member function `download(host)`, statement by statement; `d` is the mirror before
the call. -/
def download (K : AlignmentDataMask) (host : alignment_batch_host cigar_op)
    (d : alignment_batch_device cigar_op) : alignment_batch_device cigar_op :=
  let d := download_scalars host d
  let d := download_CHROMOSOME K host d
  let d := download_ALIGNMENT_START K host d
  let d := download_ALIGNMENT_STOP K host d
  let d := download_MATE_CHROMOSOME K host d
  let d := download_MATE_ALIGNMENT_START K host d
  let d := download_INFERRED_INSERT_SIZE K host d
  let d := download_CIGAR K host d
  let d := download_READS K host d
  let d := download_QUALITIES K host d
  let d := download_FLAGS K host d
  let d := download_MAPQ K host d
  let d := download_READ_GROUP K host d
  d

/-- The nested type `const_view`: the two counters and one view for each of the eighteen
vectors. A view of a vector denotes the vector it was taken from, so it is embedded as that
vector's content. -/
structure const_view (cigar_op : Type) where
  num_reads : uint32
  max_read_size : uint32
  chromosome : List uint16
  alignment_start : List uint32
  alignment_stop : List uint32
  mate_chromosome : List uint32
  mate_alignment_start : List uint32
  inferred_insert_size : List int32
  cigars : List cigar_op
  cigar_start : List uint32
  cigar_len : List uint32
  reads : packed_vector
  read_start : List uint32
  read_len : List uint32
  qualities : List uint8
  qual_start : List uint32
  qual_len : List uint32
  flags : List uint16
  mapq : List uint8
  read_group : List uint32
deriving DecidableEq, Repr

/-- The member function `const_view::crq_index(read_id)`. -/
def const_view.crq_index (v : const_view cigar_op) (read_id : uint32) : Option CRQ_index := do
  let a ← v.cigar_start[read_id]?
  let b ← v.cigar_len[read_id]?
  let c ← v.read_start[read_id]?
  let e ← v.read_len[read_id]?
  let f ← v.qual_start[read_id]?
  let g ← v.qual_len[read_id]?
  pure (CRQ_index.mk a b c e f g)

/-- The conversion `operator const_view()`: the aggregate initialiser, member by member in
the order of the declaration of `const_view`. -/
def to_const_view (d : alignment_batch_device cigar_op) : const_view cigar_op :=
  { num_reads := d.num_reads,
    max_read_size := d.max_read_size,
    chromosome := d.chromosome,
    alignment_start := d.alignment_start,
    alignment_stop := d.alignment_stop,
    mate_chromosome := d.mate_chromosome,
    mate_alignment_start := d.mate_alignment_start,
    inferred_insert_size := d.inferred_insert_size,
    cigars := d.cigars,
    cigar_start := d.cigar_start,
    cigar_len := d.cigar_len,
    reads := d.reads,
    read_start := d.read_start,
    read_len := d.read_len,
    qualities := d.qualities,
    qual_start := d.qual_start,
    qual_len := d.qual_len,
    flags := d.flags,
    mapq := d.mapq,
    read_group := d.read_group }

end alignment_batch_device

/-! ## Alignment header -/

/-- The member of `alignment_header_storage<system>` that the header mirror reads and writes:
the table of chromosome lengths, one entry per chromosome id. Both the host header
(`alignment_header_host`) and the device mirror are of this shape. -/
structure alignment_header_storage where
  chromosome_lengths : List uint32
deriving DecidableEq, Repr

/-- The host header that `download` reads from. -/
abbrev alignment_header_host := alignment_header_storage

/-- The device mirror of the header: it adds no member to its base. -/
abbrev alignment_header_device := alignment_header_storage

/-- The member function `alignment_header_device::download(host)`; `d` is the mirror before
the call. -/
def alignment_header_device.download (host : alignment_header_host)
    (d : alignment_header_device) : alignment_header_device :=
  { d with chromosome_lengths := host.chromosome_lengths }

/-- The wrapper `alignment_header<system>`: the referenced host header and the owned mirror.
The reference is embedded as the value it refers to. -/
structure alignment_header where
  host : alignment_header_host
  device : alignment_header_device
deriving DecidableEq, Repr

/-- The member function `alignment_header::download()`. -/
def alignment_header.download (w : alignment_header) : alignment_header :=
  { w with device := alignment_header_device.download w.host w.device }

/-! ## Sequence data -/

namespace SequenceDataMask

def BASES : uint32 := 0x001
def QUALITIES : uint32 := 0x002
def NAMES : uint32 := 0x004

end SequenceDataMask

/-- The members of `sequence_data_storage<system>`. -/
structure sequence_data_storage where
  generation : uint32
  data_mask : uint32
  num_sequences : uint32
  bases : packed_vector
  qualities : List uint8
  sequence_id : List uint32
  sequence_bp_start : List uint64
  sequence_bp_len : List uint64
  sequence_qual_start : List uint64
  sequence_qual_len : List uint64
deriving DecidableEq, Repr

namespace sequence_data_storage

/-- Modelled from the spec: the code that changes the host copy of the sequence data is not
among the sources. The generation counter, a `uint32`, is incremented whenever the host
content changes. -/
def increment_generation (host : sequence_data_storage) : sequence_data_storage :=
  { host with generation := (host.generation + 1) % 2 ^ 32 }

/-- Modelled from the spec: the refresh of the sequence-data mirror is declared in
`device/sequence_data_device.h`, which is not among the sources. It copies `num_sequences`
and the mask verbatim, copies each field group whose mask bit is set and clears each group
whose bit is unset, and stores the generation of the host it was refreshed against. -/
def refresh (host mirror : sequence_data_storage) : sequence_data_storage :=
  let set_bases := host.data_mask &&& SequenceDataMask.BASES ≠ 0
  let set_qualities := host.data_mask &&& SequenceDataMask.QUALITIES ≠ 0
  let set_names := host.data_mask &&& SequenceDataMask.NAMES ≠ 0
  { mirror with
    generation := host.generation,
    data_mask := host.data_mask,
    num_sequences := host.num_sequences,
    bases := if set_bases then host.bases else packed_vector.clear,
    sequence_bp_start := if set_bases then host.sequence_bp_start else [],
    sequence_bp_len := if set_bases then host.sequence_bp_len else [],
    qualities := if set_qualities then host.qualities else [],
    sequence_qual_start := if set_qualities then host.sequence_qual_start else [],
    sequence_qual_len := if set_qualities then host.sequence_qual_len else [],
    sequence_id := if set_names then host.sequence_id else [] }

/-- Modelled from the spec: the staleness check `mirror.generation_seen != host.generation`,
where the generation the mirror has seen is its own `generation` member. -/
def is_stale (mirror host : sequence_data_storage) : Bool :=
  mirror.generation != host.generation

end sequence_data_storage

/-! ## The bit-packed vector -/

namespace packed_vector

/-- Modelled from the spec: the number of bits of one storage word of a packed vector. -/
def wordbits : Nat := 32

/-- Modelled from the spec: one word of the bit-packed buffer. The values of the chunk
follow each other in the bit stream: the `k`-th one occupies the `W` bits from bit `k * W`
on. -/
def pack_word (W : Nat) : List Nat → uint32
  | [] => 0
  | v :: vs => v ||| (pack_word W vs <<< W)

/-- Modelled from the spec: `pack` of a sequence of integers in `[0, 2^W)` is the
contiguous bit-packed buffer of the sequence, `wordbits / W` values to the word, with the
number of values stored. -/
def pack (W : Nat) (values : List Nat) : packed_vector :=
  let per_word := wordbits / W
  let words := (values.length * W + wordbits - 1) / wordbits
  { storage := (List.range words).map
      (fun j => pack_word W ((values.drop (j * per_word)).take per_word)),
    count := values.length }

/-- Modelled from the spec: `get(i)` decodes the `i`-th `W`-bit value with
`bit_offset = i * W`, `word = bit_offset / wordbits` and `shift = bit_offset % wordbits`.
An index that is not below the count is a contract violation, and undefined (`none`). -/
def get (W : Nat) (p : packed_vector) (i : Nat) : Option Nat :=
  if i < p.count then
    let bit_offset := i * W
    let word := bit_offset / wordbits
    let shift := bit_offset % wordbits
    (p.storage[word]?).map (fun w => (w >>> shift) &&& (2 ^ W - 1))
  else none

end packed_vector

/-! ## The view of the sequence data -/

namespace sequence_data_storage

/-- The nested type `sequence_data_storage::const_view`: the mask, the number of sequences
and one view for each of the seven vectors. A view of a vector is embedded as the content
of the vector it was taken from. -/
structure const_view where
  data_mask : uint32
  num_sequences : uint32
  bases : packed_vector
  qualities : List uint8
  sequence_id : List uint32
  sequence_bp_start : List uint64
  sequence_bp_len : List uint64
  sequence_qual_start : List uint64
  sequence_qual_len : List uint64
deriving DecidableEq, Repr

/-- The conversion `operator const_view()` of `sequence_data_storage`: the aggregate
initialiser, member by member in the order of the declaration of `const_view`. -/
def to_const_view (s : sequence_data_storage) : const_view :=
  { data_mask := s.data_mask,
    num_sequences := s.num_sequences,
    bases := s.bases,
    qualities := s.qualities,
    sequence_id := s.sequence_id,
    sequence_bp_start := s.sequence_bp_start,
    sequence_bp_len := s.sequence_bp_len,
    sequence_qual_start := s.sequence_qual_start,
    sequence_qual_len := s.sequence_qual_len }

end sequence_data_storage

/-! ## The alignment batch wrapper -/

/-- The wrapper `alignment_batch<system>`: the pointer to the host batch, `none` for `NULL`,
and the owned device mirror. A pointer that is not `NULL` is embedded as the batch it
points to. -/
structure alignment_batch (cigar_op : Type) where
  host : Option (alignment_batch_host cigar_op)
  device : alignment_batch_device cigar_op
deriving DecidableEq, Repr

/-- The member function `alignment_batch::download(host)`: the pointer is stored and the
mirror downloads the batch it points to. Dereferencing `NULL` is undefined (`none`). -/
def alignment_batch.download {cigar_op : Type} (K : AlignmentDataMask)
    (host : Option (alignment_batch_host cigar_op)) (w : alignment_batch cigar_op) :
    Option (alignment_batch cigar_op) :=
  let w := { w with host := host }
  match host with
  | none => none
  | some h => some { w with device := alignment_batch_device.download K h w.device }

/-! ## The range invariant of the offset vectors -/

/-- The range invariant of one pair of offset vectors against the size of the shared
vector: `start[i] + len[i] <= size` for every index `i` of the pair. -/
def ranges_within (start len : List uint32) (size : Nat) : Prop :=
  ∀ p ∈ List.zip start len, p.1 + p.2 ≤ size

instance (start len : List uint32) (size : Nat) : Decidable (ranges_within start len size) := by
  unfold ranges_within
  infer_instance

/-- The range invariant of a batch: the CIGAR, READS and QUALITIES offsets stay within
`cigars`, `reads` and `qualities`. The size of the packed vector `reads` is the number of
values it stores. -/
def range_invariant {cigar_op : Type} (s : alignment_batch_storage cigar_op) : Prop :=
  ranges_within s.cigar_start s.cigar_len s.cigars.length ∧
  ranges_within s.read_start s.read_len s.reads.count ∧
  ranges_within s.qual_start s.qual_len s.qualities.length

instance {cigar_op : Type} (s : alignment_batch_storage cigar_op) :
    Decidable (range_invariant s) := by
  unfold range_invariant
  infer_instance

/-! ## The field-presence invariant -/

/-- The field-presence invariant of the data model: every per-record vector of a group
whose mask bit is set has length `num_reads`, and every vector of a group whose bit is unset
is empty. The shared vectors `cigars`, `reads` and `qualities` hold the records' ranges, so
only their emptiness is constrained. -/
def field_presence {cigar_op : Type} (K : AlignmentDataMask)
    (s : alignment_batch_storage cigar_op) : Prop :=
  (if s.data_mask &&& K.CHROMOSOME ≠ 0
    then s.chromosome.length = s.num_reads
    else s.chromosome = []) ∧
  (if s.data_mask &&& K.ALIGNMENT_START ≠ 0
    then s.alignment_start.length = s.num_reads
    else s.alignment_start = []) ∧
  (if s.data_mask &&& K.ALIGNMENT_STOP ≠ 0
    then s.alignment_stop.length = s.num_reads
    else s.alignment_stop = []) ∧
  (if s.data_mask &&& K.MATE_CHROMOSOME ≠ 0
    then s.mate_chromosome.length = s.num_reads
    else s.mate_chromosome = []) ∧
  (if s.data_mask &&& K.MATE_ALIGNMENT_START ≠ 0
    then s.mate_alignment_start.length = s.num_reads
    else s.mate_alignment_start = []) ∧
  (if s.data_mask &&& K.INFERRED_INSERT_SIZE ≠ 0
    then s.inferred_insert_size.length = s.num_reads
    else s.inferred_insert_size = []) ∧
  (if s.data_mask &&& K.CIGAR ≠ 0
    then s.cigar_start.length = s.num_reads ∧ s.cigar_len.length = s.num_reads
    else s.cigars = [] ∧ s.cigar_start = [] ∧ s.cigar_len = []) ∧
  (if s.data_mask &&& K.READS ≠ 0
    then s.read_start.length = s.num_reads ∧ s.read_len.length = s.num_reads
    else s.reads = packed_vector.clear ∧ s.read_start = [] ∧ s.read_len = []) ∧
  (if s.data_mask &&& K.QUALITIES ≠ 0
    then s.qual_start.length = s.num_reads ∧ s.qual_len.length = s.num_reads
    else s.qualities = [] ∧ s.qual_start = [] ∧ s.qual_len = []) ∧
  (if s.data_mask &&& K.FLAGS ≠ 0
    then s.flags.length = s.num_reads
    else s.flags = []) ∧
  (if s.data_mask &&& K.MAPQ ≠ 0
    then s.mapq.length = s.num_reads
    else s.mapq = []) ∧
  (if s.data_mask &&& K.READ_GROUP ≠ 0
    then s.read_group.length = s.num_reads
    else s.read_group = [])

instance {cigar_op : Type} [DecidableEq cigar_op] (K : AlignmentDataMask)
    (s : alignment_batch_storage cigar_op) : Decidable (field_presence K s) := by
  unfold field_presence
  infer_instance

/-! ## Sample data -/

/-- A sample assignment of the mask constants: twelve distinct single bits. -/
def sample_mask : AlignmentDataMask :=
  { CHROMOSOME := 0x002,
    ALIGNMENT_START := 0x004,
    ALIGNMENT_STOP := 0x008,
    MATE_CHROMOSOME := 0x010,
    MATE_ALIGNMENT_START := 0x020,
    INFERRED_INSERT_SIZE := 0x040,
    CIGAR := 0x080,
    READS := 0x100,
    QUALITIES := 0x200,
    FLAGS := 0x400,
    MAPQ := 0x800,
    READ_GROUP := 0x1000 }

/-- A host batch of two records with every vector populated: five CIGAR operations laid
out as `cigar_start = [0, 3]`, `cigar_len = [3, 2]`, ten bases and ten qualities. The mask
is left to the caller. -/
def scenario_host (mask : uint32) : alignment_batch_host Nat :=
  { num_reads := 2,
    max_read_size := 5,
    data_mask := mask,
    chromosome := [0, 1],
    alignment_start := [100, 200],
    alignment_stop := [104, 204],
    mate_chromosome := [0, 1],
    mate_alignment_start := [300, 400],
    inferred_insert_size := [200, -200],
    cigars := [3, 2, 1, 4, 5],
    cigar_start := [0, 3],
    cigar_len := [3, 2],
    reads := { storage := [0x32103210, 0x00000010], count := 10 },
    read_start := [0, 5],
    read_len := [5, 5],
    qualities := [30, 31, 32, 33, 34, 20, 21, 22, 23, 24],
    qual_start := [0, 5],
    qual_len := [5, 5],
    flags := [0, 16],
    mapq := [60, 37],
    read_group := [0, 1] }

/-- A host batch of two records as a loader leaves it for the mask `{CIGAR}`: the CIGAR
group is populated and every other vector is empty. -/
def cigar_only_host : alignment_batch_host Nat :=
  { num_reads := 2,
    max_read_size := 5,
    data_mask := sample_mask.CIGAR,
    chromosome := [],
    alignment_start := [],
    alignment_stop := [],
    mate_chromosome := [],
    mate_alignment_start := [],
    inferred_insert_size := [],
    cigars := [3, 2, 1, 4, 5],
    cigar_start := [0, 3],
    cigar_len := [3, 2],
    reads := packed_vector.clear,
    read_start := [],
    read_len := [],
    qualities := [],
    qual_start := [],
    qual_len := [],
    flags := [],
    mapq := [],
    read_group := [] }

/-- The mask with the bits of all twelve groups of `sample_mask`. -/
def all_groups : uint32 := 0x1ffe

/-- A host copy of the sequence data: two sequences of four bases each, at generation 7. -/
def sample_sequence_host : sequence_data_storage :=
  { generation := 7,
    data_mask := 0x001,
    num_sequences := 2,
    bases := { storage := [0x32103210], count := 8 },
    qualities := [],
    sequence_id := [],
    sequence_bp_start := [0, 4],
    sequence_bp_len := [4, 4],
    sequence_qual_start := [],
    sequence_qual_len := [] }

/-- The mirror of `sample_sequence_host` once refreshed against it. -/
def sample_sequence_mirror : sequence_data_storage :=
  sequence_data_storage.refresh sample_sequence_host
    { generation := 0,
      data_mask := 0,
      num_sequences := 0,
      bases := packed_vector.clear,
      qualities := [],
      sequence_id := [],
      sequence_bp_start := [],
      sequence_bp_len := [],
      sequence_qual_start := [],
      sequence_qual_len := [] }

/-! ## The effect of `download` -/

namespace alignment_batch_device

variable {cigar_op : Type}

theorem download_CHROMOSOME_eq (K : AlignmentDataMask) (host : alignment_batch_host cigar_op)
    (d : alignment_batch_device cigar_op) :
    download_CHROMOSOME K host d =
    { d with
      chromosome := if d.data_mask &&& K.CHROMOSOME ≠ 0 then host.chromosome else [] } := by
  unfold download_CHROMOSOME
  split <;> rfl

theorem download_ALIGNMENT_START_eq (K : AlignmentDataMask) (host : alignment_batch_host cigar_op)
    (d : alignment_batch_device cigar_op) :
    download_ALIGNMENT_START K host d =
    { d with
      alignment_start := if d.data_mask &&& K.ALIGNMENT_START ≠ 0 then host.alignment_start else [] } := by
  unfold download_ALIGNMENT_START
  split <;> rfl

theorem download_ALIGNMENT_STOP_eq (K : AlignmentDataMask) (host : alignment_batch_host cigar_op)
    (d : alignment_batch_device cigar_op) :
    download_ALIGNMENT_STOP K host d =
    { d with
      alignment_stop := if d.data_mask &&& K.ALIGNMENT_STOP ≠ 0 then host.alignment_stop else [] } := by
  unfold download_ALIGNMENT_STOP
  split <;> rfl

theorem download_MATE_CHROMOSOME_eq (K : AlignmentDataMask) (host : alignment_batch_host cigar_op)
    (d : alignment_batch_device cigar_op) :
    download_MATE_CHROMOSOME K host d =
    { d with
      mate_chromosome := if d.data_mask &&& K.MATE_CHROMOSOME ≠ 0 then host.mate_chromosome else [] } := by
  unfold download_MATE_CHROMOSOME
  split <;> rfl

theorem download_MATE_ALIGNMENT_START_eq (K : AlignmentDataMask) (host : alignment_batch_host cigar_op)
    (d : alignment_batch_device cigar_op) :
    download_MATE_ALIGNMENT_START K host d =
    { d with
      mate_alignment_start := if d.data_mask &&& K.MATE_ALIGNMENT_START ≠ 0 then host.mate_alignment_start else [] } := by
  unfold download_MATE_ALIGNMENT_START
  split <;> rfl

theorem download_INFERRED_INSERT_SIZE_eq (K : AlignmentDataMask) (host : alignment_batch_host cigar_op)
    (d : alignment_batch_device cigar_op) :
    download_INFERRED_INSERT_SIZE K host d =
    { d with
      inferred_insert_size := if d.data_mask &&& K.INFERRED_INSERT_SIZE ≠ 0 then host.inferred_insert_size else [] } := by
  unfold download_INFERRED_INSERT_SIZE
  split <;> rfl

theorem download_CIGAR_eq (K : AlignmentDataMask) (host : alignment_batch_host cigar_op)
    (d : alignment_batch_device cigar_op) :
    download_CIGAR K host d =
    { d with
      cigars := if d.data_mask &&& K.CIGAR ≠ 0 then host.cigars else [],
      cigar_start := if d.data_mask &&& K.CIGAR ≠ 0 then host.cigar_start else [],
      cigar_len := if d.data_mask &&& K.CIGAR ≠ 0 then host.cigar_len else [] } := by
  unfold download_CIGAR
  split <;> rfl

theorem download_READS_eq (K : AlignmentDataMask) (host : alignment_batch_host cigar_op)
    (d : alignment_batch_device cigar_op) :
    download_READS K host d =
    { d with
      reads := if d.data_mask &&& K.READS ≠ 0 then host.reads else packed_vector.clear,
      read_start := if d.data_mask &&& K.READS ≠ 0 then host.read_start else [],
      read_len := if d.data_mask &&& K.READS ≠ 0 then host.read_len else [] } := by
  unfold download_READS
  split <;> rfl

theorem download_QUALITIES_eq (K : AlignmentDataMask) (host : alignment_batch_host cigar_op)
    (d : alignment_batch_device cigar_op) :
    download_QUALITIES K host d =
    { d with
      qualities := if d.data_mask &&& K.QUALITIES ≠ 0 then host.qualities else [],
      qual_start := if d.data_mask &&& K.QUALITIES ≠ 0 then host.qual_start else [],
      qual_len := if d.data_mask &&& K.QUALITIES ≠ 0 then host.qual_len else [] } := by
  unfold download_QUALITIES
  split <;> rfl

theorem download_FLAGS_eq (K : AlignmentDataMask) (host : alignment_batch_host cigar_op)
    (d : alignment_batch_device cigar_op) :
    download_FLAGS K host d =
    { d with
      flags := if d.data_mask &&& K.FLAGS ≠ 0 then host.flags else [] } := by
  unfold download_FLAGS
  split <;> rfl

theorem download_MAPQ_eq (K : AlignmentDataMask) (host : alignment_batch_host cigar_op)
    (d : alignment_batch_device cigar_op) :
    download_MAPQ K host d =
    { d with
      mapq := if d.data_mask &&& K.MAPQ ≠ 0 then host.mapq else [] } := by
  unfold download_MAPQ
  split <;> rfl

theorem download_READ_GROUP_eq (K : AlignmentDataMask) (host : alignment_batch_host cigar_op)
    (d : alignment_batch_device cigar_op) :
    download_READ_GROUP K host d =
    { d with
      read_group := if d.data_mask &&& K.READ_GROUP ≠ 0 then host.read_group else [] } := by
  unfold download_READ_GROUP
  split <;> rfl

/-- The mirror after `download`, member by member: the three scalars of the host, and for
each vector the host's vector or the empty one, by the bit of its group in the host's mask.
The mirror before the call does not occur in it. -/
theorem download_eq (K : AlignmentDataMask) (host : alignment_batch_host cigar_op)
    (d : alignment_batch_device cigar_op) :
    download K host d =
    { num_reads := host.num_reads,
      max_read_size := host.max_read_size,
      data_mask := host.data_mask,
      chromosome := if host.data_mask &&& K.CHROMOSOME ≠ 0 then host.chromosome else [],
      alignment_start := if host.data_mask &&& K.ALIGNMENT_START ≠ 0 then host.alignment_start else [],
      alignment_stop := if host.data_mask &&& K.ALIGNMENT_STOP ≠ 0 then host.alignment_stop else [],
      mate_chromosome := if host.data_mask &&& K.MATE_CHROMOSOME ≠ 0 then host.mate_chromosome else [],
      mate_alignment_start := if host.data_mask &&& K.MATE_ALIGNMENT_START ≠ 0 then host.mate_alignment_start else [],
      inferred_insert_size := if host.data_mask &&& K.INFERRED_INSERT_SIZE ≠ 0 then host.inferred_insert_size else [],
      cigars := if host.data_mask &&& K.CIGAR ≠ 0 then host.cigars else [],
      cigar_start := if host.data_mask &&& K.CIGAR ≠ 0 then host.cigar_start else [],
      cigar_len := if host.data_mask &&& K.CIGAR ≠ 0 then host.cigar_len else [],
      reads := if host.data_mask &&& K.READS ≠ 0 then host.reads else packed_vector.clear,
      read_start := if host.data_mask &&& K.READS ≠ 0 then host.read_start else [],
      read_len := if host.data_mask &&& K.READS ≠ 0 then host.read_len else [],
      qualities := if host.data_mask &&& K.QUALITIES ≠ 0 then host.qualities else [],
      qual_start := if host.data_mask &&& K.QUALITIES ≠ 0 then host.qual_start else [],
      qual_len := if host.data_mask &&& K.QUALITIES ≠ 0 then host.qual_len else [],
      flags := if host.data_mask &&& K.FLAGS ≠ 0 then host.flags else [],
      mapq := if host.data_mask &&& K.MAPQ ≠ 0 then host.mapq else [],
      read_group := if host.data_mask &&& K.READ_GROUP ≠ 0 then host.read_group else [] } := by
  simp only [download, download_scalars, download_CHROMOSOME_eq, download_ALIGNMENT_START_eq, download_ALIGNMENT_STOP_eq, download_MATE_CHROMOSOME_eq, download_MATE_ALIGNMENT_START_eq, download_INFERRED_INSERT_SIZE_eq, download_CIGAR_eq, download_READS_eq, download_QUALITIES_eq, download_FLAGS_eq, download_MAPQ_eq, download_READ_GROUP_eq]

end alignment_batch_device

/-! ## Alignment batch: what `download` leaves in the mirror -/

namespace alignment_batch_device

variable {cigar_op : Type}

/-- C1: for every host batch and every mirror before the call, after `download` each of
the twelve field groups whose bit is set in the mask of the host has every one of its
mirror vectors equal to the vector of the host. -/
theorem download_copies_set_groups (K : AlignmentDataMask)
    (host : alignment_batch_host cigar_op) (d : alignment_batch_device cigar_op) :
    (host.data_mask &&& K.CHROMOSOME ≠ 0 →
      (download K host d).chromosome = host.chromosome) ∧
    (host.data_mask &&& K.ALIGNMENT_START ≠ 0 →
      (download K host d).alignment_start = host.alignment_start) ∧
    (host.data_mask &&& K.ALIGNMENT_STOP ≠ 0 →
      (download K host d).alignment_stop = host.alignment_stop) ∧
    (host.data_mask &&& K.MATE_CHROMOSOME ≠ 0 →
      (download K host d).mate_chromosome = host.mate_chromosome) ∧
    (host.data_mask &&& K.MATE_ALIGNMENT_START ≠ 0 →
      (download K host d).mate_alignment_start = host.mate_alignment_start) ∧
    (host.data_mask &&& K.INFERRED_INSERT_SIZE ≠ 0 →
      (download K host d).inferred_insert_size = host.inferred_insert_size) ∧
    (host.data_mask &&& K.CIGAR ≠ 0 →
      (download K host d).cigars = host.cigars ∧
      (download K host d).cigar_start = host.cigar_start ∧
      (download K host d).cigar_len = host.cigar_len) ∧
    (host.data_mask &&& K.READS ≠ 0 →
      (download K host d).reads = host.reads ∧
      (download K host d).read_start = host.read_start ∧
      (download K host d).read_len = host.read_len) ∧
    (host.data_mask &&& K.QUALITIES ≠ 0 →
      (download K host d).qualities = host.qualities ∧
      (download K host d).qual_start = host.qual_start ∧
      (download K host d).qual_len = host.qual_len) ∧
    (host.data_mask &&& K.FLAGS ≠ 0 →
      (download K host d).flags = host.flags) ∧
    (host.data_mask &&& K.MAPQ ≠ 0 →
      (download K host d).mapq = host.mapq) ∧
    (host.data_mask &&& K.READ_GROUP ≠ 0 →
      (download K host d).read_group = host.read_group) := by
  rw [download_eq]
  refine ⟨?_, ?_, ?_, ?_, ?_, ?_, ?_, ?_, ?_, ?_, ?_, ?_⟩ <;>
    intro h <;> simp only [h, if_true, and_self, not_false_eq_true, ne_eq]

/-- C1 at a concrete input: the fully populated two-record host with the bits of all twelve
groups set, downloaded over a mirror that held only CIGAR data. -/
theorem download_copies_set_groups_witness :
    (download sample_mask (scenario_host all_groups) cigar_only_host).chromosome =
      (scenario_host all_groups).chromosome ∧
    (download sample_mask (scenario_host all_groups) cigar_only_host).alignment_start =
      (scenario_host all_groups).alignment_start ∧
    (download sample_mask (scenario_host all_groups) cigar_only_host).alignment_stop =
      (scenario_host all_groups).alignment_stop ∧
    (download sample_mask (scenario_host all_groups) cigar_only_host).mate_chromosome =
      (scenario_host all_groups).mate_chromosome ∧
    (download sample_mask (scenario_host all_groups) cigar_only_host).mate_alignment_start =
      (scenario_host all_groups).mate_alignment_start ∧
    (download sample_mask (scenario_host all_groups) cigar_only_host).inferred_insert_size =
      (scenario_host all_groups).inferred_insert_size ∧
    (download sample_mask (scenario_host all_groups) cigar_only_host).cigars =
      (scenario_host all_groups).cigars ∧
    (download sample_mask (scenario_host all_groups) cigar_only_host).cigar_start =
      (scenario_host all_groups).cigar_start ∧
    (download sample_mask (scenario_host all_groups) cigar_only_host).cigar_len =
      (scenario_host all_groups).cigar_len ∧
    (download sample_mask (scenario_host all_groups) cigar_only_host).reads =
      (scenario_host all_groups).reads ∧
    (download sample_mask (scenario_host all_groups) cigar_only_host).read_start =
      (scenario_host all_groups).read_start ∧
    (download sample_mask (scenario_host all_groups) cigar_only_host).read_len =
      (scenario_host all_groups).read_len ∧
    (download sample_mask (scenario_host all_groups) cigar_only_host).qualities =
      (scenario_host all_groups).qualities ∧
    (download sample_mask (scenario_host all_groups) cigar_only_host).qual_start =
      (scenario_host all_groups).qual_start ∧
    (download sample_mask (scenario_host all_groups) cigar_only_host).qual_len =
      (scenario_host all_groups).qual_len ∧
    (download sample_mask (scenario_host all_groups) cigar_only_host).flags =
      (scenario_host all_groups).flags ∧
    (download sample_mask (scenario_host all_groups) cigar_only_host).mapq =
      (scenario_host all_groups).mapq ∧
    (download sample_mask (scenario_host all_groups) cigar_only_host).read_group =
      (scenario_host all_groups).read_group := by
  have h := download_copies_set_groups sample_mask (scenario_host all_groups) cigar_only_host
  obtain ⟨h1, h2, h3, h4, h5, h6, h7, h8, h9, h10, h11, h12⟩ := h
  have a1 := h1 (by decide)
  have a2 := h2 (by decide)
  have a3 := h3 (by decide)
  have a4 := h4 (by decide)
  have a5 := h5 (by decide)
  have a6 := h6 (by decide)
  have a7 := h7 (by decide)
  have a8 := h8 (by decide)
  have a9 := h9 (by decide)
  have a10 := h10 (by decide)
  have a11 := h11 (by decide)
  have a12 := h12 (by decide)
  exact ⟨a1, a2, a3, a4, a5, a6, a7.1, a7.2.1, a7.2.2, a8.1, a8.2.1, a8.2.2,
    a9.1, a9.2.1, a9.2.2, a10, a11, a12⟩

/-- C2: for every host batch and every mirror before the call, after `download` every
mirror vector of every field group whose bit is unset in the mask of the host is empty,
whatever the host holds for that group. In particular, for a host with
`cigar_start = [0, 3]`, `cigar_len = [3, 2]` and five CIGAR operations, a mask without the
CIGAR bit leaves `cigars`, `cigar_start` and `cigar_len` empty, and the mask `{CIGAR}`
gives `cigar_start = [0, 3]` and `cigar_len = [3, 2]`. -/
theorem download_clears_unset_groups (K : AlignmentDataMask)
    (host : alignment_batch_host cigar_op) (d : alignment_batch_device cigar_op) :
    ((host.data_mask &&& K.CHROMOSOME = 0 →
      (download K host d).chromosome = []) ∧
    (host.data_mask &&& K.ALIGNMENT_START = 0 →
      (download K host d).alignment_start = []) ∧
    (host.data_mask &&& K.ALIGNMENT_STOP = 0 →
      (download K host d).alignment_stop = []) ∧
    (host.data_mask &&& K.MATE_CHROMOSOME = 0 →
      (download K host d).mate_chromosome = []) ∧
    (host.data_mask &&& K.MATE_ALIGNMENT_START = 0 →
      (download K host d).mate_alignment_start = []) ∧
    (host.data_mask &&& K.INFERRED_INSERT_SIZE = 0 →
      (download K host d).inferred_insert_size = []) ∧
    (host.data_mask &&& K.CIGAR = 0 →
      (download K host d).cigars = [] ∧
      (download K host d).cigar_start = [] ∧
      (download K host d).cigar_len = []) ∧
    (host.data_mask &&& K.READS = 0 →
      (download K host d).reads = packed_vector.clear ∧
      (download K host d).read_start = [] ∧
      (download K host d).read_len = []) ∧
    (host.data_mask &&& K.QUALITIES = 0 →
      (download K host d).qualities = [] ∧
      (download K host d).qual_start = [] ∧
      (download K host d).qual_len = []) ∧
    (host.data_mask &&& K.FLAGS = 0 →
      (download K host d).flags = []) ∧
    (host.data_mask &&& K.MAPQ = 0 →
      (download K host d).mapq = []) ∧
    (host.data_mask &&& K.READ_GROUP = 0 →
      (download K host d).read_group = [])) ∧
    (host.cigars.length = 5 → host.cigar_start = [0, 3] → host.cigar_len = [3, 2] →
      (host.data_mask &&& K.CIGAR = 0 →
        (download K host d).cigars = [] ∧
        (download K host d).cigar_start = [] ∧
        (download K host d).cigar_len = []) ∧
      (K.CIGAR ≠ 0 → host.data_mask = K.CIGAR →
        (download K host d).cigar_start = [0, 3] ∧
        (download K host d).cigar_len = [3, 2])) := by
  rw [download_eq]
  refine ⟨⟨?_, ?_, ?_, ?_, ?_, ?_, ?_, ?_, ?_, ?_, ?_, ?_⟩, ?_⟩
  iterate 12 (intro h; simp only [h, ne_eq, not_true_eq_false, if_false, and_self])
  intro _ hs hl
  refine ⟨?_, ?_⟩
  · intro h
    simp only [h, ne_eq, not_true_eq_false, if_false, and_self]
  · intro hK hm
    have h : host.data_mask &&& K.CIGAR ≠ 0 := by
      rw [hm, Nat.and_self]
      exact hK
    simp only [h, ne_eq, not_false_eq_true, if_true, hs, hl, and_self]

/-- C2 at a concrete input: the fully populated two-record host. With a mask that has only
the READS bit, downloaded over the mirror left by a download with the mask `{CIGAR}`, the
three CIGAR vectors are empty; with the mask `{CIGAR}` the offsets are those of the host. -/
theorem download_clears_unset_groups_witness :
    ((download sample_mask (scenario_host sample_mask.READS)
        (download sample_mask (scenario_host sample_mask.CIGAR) cigar_only_host)).cigars = [] ∧
      (download sample_mask (scenario_host sample_mask.READS)
        (download sample_mask (scenario_host sample_mask.CIGAR) cigar_only_host)).cigar_start
        = [] ∧
      (download sample_mask (scenario_host sample_mask.READS)
        (download sample_mask (scenario_host sample_mask.CIGAR) cigar_only_host)).cigar_len
        = []) ∧
    ((download sample_mask (scenario_host sample_mask.CIGAR) cigar_only_host).cigar_start
        = [0, 3] ∧
      (download sample_mask (scenario_host sample_mask.CIGAR) cigar_only_host).cigar_len
        = [3, 2]) :=
  ⟨((download_clears_unset_groups sample_mask (scenario_host sample_mask.READS)
      (download sample_mask (scenario_host sample_mask.CIGAR) cigar_only_host)).2
      (by decide) (by decide) (by decide)).1 (by decide),
   ((download_clears_unset_groups sample_mask (scenario_host sample_mask.CIGAR)
      cigar_only_host).2 (by decide) (by decide) (by decide)).2 (by decide) (by decide)⟩

/-- C3: for every host batch and every mirror before the call, after `download` the
`num_reads`, `max_read_size` and `data_mask` of the mirror are those of the host; the mask
is copied whole, whatever bits it has. -/
theorem download_copies_scalars (K : AlignmentDataMask)
    (host : alignment_batch_host cigar_op) (d : alignment_batch_device cigar_op) :
    (download K host d).num_reads = host.num_reads ∧
    (download K host d).max_read_size = host.max_read_size ∧
    (download K host d).data_mask = host.data_mask := by
  rw [download_eq]
  exact ⟨rfl, rfl, rfl⟩

/-- C4: `download` is idempotent: a second `download` of the same host gives the mirror
that the first one gave, in all its members. -/
theorem download_idempotent (K : AlignmentDataMask)
    (host : alignment_batch_host cigar_op) (d : alignment_batch_device cigar_op) :
    download K host (download K host d) = download K host d := by
  rw [download_eq K host (download K host d), download_eq K host d]

end alignment_batch_device

/-! ## The CRQ index -/

namespace alignment_batch_device

variable {cigar_op : Type}

/-- C5: for every batch storage and every `read_id` that is a valid index of the six offset
vectors, `crq_index(read_id)` is the descriptor with the components `cigar_start[read_id]`,
`cigar_len[read_id]`, `read_start[read_id]`, `read_len[read_id]`, `qual_start[read_id]`,
`qual_len[read_id]`, in that order; so it is for the accessor of the view taken from the
storage. -/
theorem crq_index_lookup (d : alignment_batch_device cigar_op) (read_id : uint32)
    (h1 : read_id < d.cigar_start.length) (h2 : read_id < d.cigar_len.length)
    (h3 : read_id < d.read_start.length) (h4 : read_id < d.read_len.length)
    (h5 : read_id < d.qual_start.length) (h6 : read_id < d.qual_len.length) :
    crq_index d read_id =
      some { cigar_start := d.cigar_start[read_id],
             cigar_len := d.cigar_len[read_id],
             read_start := d.read_start[read_id],
             read_len := d.read_len[read_id],
             qual_start := d.qual_start[read_id],
             qual_len := d.qual_len[read_id] } ∧
    const_view.crq_index (to_const_view d) read_id =
      some { cigar_start := d.cigar_start[read_id],
             cigar_len := d.cigar_len[read_id],
             read_start := d.read_start[read_id],
             read_len := d.read_len[read_id],
             qual_start := d.qual_start[read_id],
             qual_len := d.qual_len[read_id] } := by
  constructor
  · simp [crq_index, List.getElem?_eq_getElem, h1, h2, h3, h4, h5, h6]
  · simp [const_view.crq_index, to_const_view, List.getElem?_eq_getElem, h1, h2, h3, h4, h5, h6]

/-- C5 at a concrete input: the second record of the two-record host. -/
theorem crq_index_lookup_witness :
    crq_index (scenario_host all_groups) 1 =
      some { cigar_start := 3, cigar_len := 2, read_start := 5, read_len := 5,
             qual_start := 5, qual_len := 5 } ∧
    const_view.crq_index (to_const_view (scenario_host all_groups)) 1 =
      some { cigar_start := 3, cigar_len := 2, read_start := 5, read_len := 5,
             qual_start := 5, qual_len := 5 } :=
  crq_index_lookup (scenario_host all_groups) 1 (by decide) (by decide) (by decide)
    (by decide) (by decide) (by decide)

/-- C6 fails as stated: the two-record host with the bits of READS and QUALITIES but not of
CIGAR. After `download`, record 0 is below `num_reads`, and `crq_index(0)` is no descriptor
at all, so none with a CIGAR start and length of zero. -/
theorem crq_index_unset_group_counterexample :
    (scenario_host 0x300).data_mask &&& sample_mask.CIGAR = 0 ∧
    0 < (download sample_mask (scenario_host 0x300) cigar_only_host).num_reads ∧
    crq_index (download sample_mask (scenario_host 0x300) cigar_only_host) 0 = none ∧
    ¬ ∃ r : CRQ_index,
      crq_index (download sample_mask (scenario_host 0x300) cigar_only_host) 0 = some r ∧
      r.cigar_start = 0 ∧ r.cigar_len = 0 := by
  decide

/-- C6 as amended: for a mirror produced by `download` from a host whose mask leaves the
CIGAR (respectively READS, QUALITIES) group unset, the start and length vectors of that
group are empty, and `crq_index(read_id)` reads past their end for every `read_id`: it is
undefined, and yields no descriptor. -/
theorem crq_index_unset_group_undefined (K : AlignmentDataMask)
    (host : alignment_batch_host cigar_op) (d : alignment_batch_device cigar_op) :
    (host.data_mask &&& K.CIGAR = 0 →
      (download K host d).cigar_start = [] ∧ (download K host d).cigar_len = [] ∧
      ∀ read_id : uint32, crq_index (download K host d) read_id = none) ∧
    (host.data_mask &&& K.READS = 0 →
      (download K host d).read_start = [] ∧ (download K host d).read_len = [] ∧
      ∀ read_id : uint32, crq_index (download K host d) read_id = none) ∧
    (host.data_mask &&& K.QUALITIES = 0 →
      (download K host d).qual_start = [] ∧ (download K host d).qual_len = [] ∧
      ∀ read_id : uint32, crq_index (download K host d) read_id = none) := by
  rw [download_eq]
  refine ⟨?_, ?_, ?_⟩ <;> intro h <;>
    simp [crq_index, h]

/-- C6 as amended, at a concrete input: the two-record host with the bits of READS and
QUALITIES only, and record 1. -/
theorem crq_index_unset_group_undefined_witness :
    (download sample_mask (scenario_host 0x300) cigar_only_host).cigar_start = [] ∧
    (download sample_mask (scenario_host 0x300) cigar_only_host).cigar_len = [] ∧
    crq_index (download sample_mask (scenario_host 0x300) cigar_only_host) 1 = none :=
  have h := (crq_index_unset_group_undefined sample_mask (scenario_host 0x300)
    cigar_only_host).1 (by decide)
  ⟨h.1, h.2.1, h.2.2 1⟩

end alignment_batch_device

/-! ## The field-presence invariant is preserved -/

namespace alignment_batch_device

variable {cigar_op : Type}

/-- C7: `download` preserves the field-presence invariant: if it holds of the host batch,
it holds of the mirror after `download`, for every mirror before the call. -/
theorem download_preserves_field_presence (K : AlignmentDataMask)
    (host : alignment_batch_host cigar_op) (d : alignment_batch_device cigar_op)
    (h : field_presence K host) : field_presence K (download K host d) := by
  unfold field_presence at h ⊢
  rw [download_eq]
  dsimp only
  obtain ⟨h1, h2, h3, h4, h5, h6, h7, h8, h9, h10, h11, h12⟩ := h
  refine ⟨?_, ?_, ?_, ?_, ?_, ?_, ?_, ?_, ?_, ?_, ?_, ?_⟩
  · split <;> simp_all
  · split <;> simp_all
  · split <;> simp_all
  · split <;> simp_all
  · split <;> simp_all
  · split <;> simp_all
  · split <;> simp_all
  · split <;> simp_all
  · split <;> simp_all
  · split <;> simp_all
  · split <;> simp_all
  · split <;> simp_all

/-- C7 at a concrete input: the host that holds CIGAR data only, downloaded over a mirror
in which every vector is populated. -/
theorem download_preserves_field_presence_witness :
    field_presence sample_mask cigar_only_host ∧
    field_presence sample_mask
      (download sample_mask cigar_only_host (scenario_host all_groups)) :=
  ⟨by decide,
   download_preserves_field_presence sample_mask cigar_only_host (scenario_host all_groups)
     (by decide)⟩

end alignment_batch_device

/-! ## The header mirror -/

/-- C8: for every host header and every mirror before the call, after
`alignment_header_device::download(host)` the `chromosome_lengths` of the mirror is the
table of the host; so it is after `alignment_header::download()` on a wrapper that refers
to the host, and the host table the wrapper refers to is the one from before the call. -/
theorem header_download_mirrors_lengths (host : alignment_header_host)
    (d : alignment_header_device) (w : alignment_header) :
    (alignment_header_device.download host d).chromosome_lengths = host.chromosome_lengths ∧
    (alignment_header.download w).device.chromosome_lengths = w.host.chromosome_lengths ∧
    (alignment_header.download w).host = w.host :=
  ⟨rfl, rfl, rfl⟩

/-! ## The view of an alignment batch -/

namespace alignment_batch_device

variable {cigar_op : Type}

/-- C9: the view converted from an `alignment_batch_device` is a faithful projection: its
`num_reads` and `max_read_size` are those of the storage, and each of its eighteen vector
members is the vector of the same name of the storage. -/
theorem to_const_view_faithful (d : alignment_batch_device cigar_op) :
    (to_const_view d).num_reads = d.num_reads ∧
    (to_const_view d).max_read_size = d.max_read_size ∧
    (to_const_view d).chromosome = d.chromosome ∧
    (to_const_view d).alignment_start = d.alignment_start ∧
    (to_const_view d).alignment_stop = d.alignment_stop ∧
    (to_const_view d).mate_chromosome = d.mate_chromosome ∧
    (to_const_view d).mate_alignment_start = d.mate_alignment_start ∧
    (to_const_view d).inferred_insert_size = d.inferred_insert_size ∧
    (to_const_view d).cigars = d.cigars ∧
    (to_const_view d).cigar_start = d.cigar_start ∧
    (to_const_view d).cigar_len = d.cigar_len ∧
    (to_const_view d).reads = d.reads ∧
    (to_const_view d).read_start = d.read_start ∧
    (to_const_view d).read_len = d.read_len ∧
    (to_const_view d).qualities = d.qualities ∧
    (to_const_view d).qual_start = d.qual_start ∧
    (to_const_view d).qual_len = d.qual_len ∧
    (to_const_view d).flags = d.flags ∧
    (to_const_view d).mapq = d.mapq ∧
    (to_const_view d).read_group = d.read_group :=
  ⟨rfl, rfl, rfl, rfl, rfl, rfl, rfl, rfl, rfl, rfl, rfl, rfl, rfl, rfl, rfl, rfl, rfl, rfl, rfl, rfl⟩

end alignment_batch_device

/-! ## Staleness of the sequence-data mirror -/

namespace sequence_data_storage

/-- C10: from a mirror whose generation is that of the host, incrementing the generation
of the host without a refresh makes the staleness check true, and a refresh against the
incremented host makes the two generations equal, so that the check is false again. -/
theorem staleness_detection (host mirror : sequence_data_storage)
    (h : mirror.generation = host.generation) :
    is_stale mirror (increment_generation host) = true ∧
    (refresh (increment_generation host) mirror).generation
      = (increment_generation host).generation ∧
    is_stale (refresh (increment_generation host) mirror) (increment_generation host)
      = false := by
  refine ⟨?_, rfl, ?_⟩
  · simp only [is_stale, increment_generation, h, bne_iff_ne, ne_eq]
    intro e
    have hpow : (2 : Nat) ^ 32 = 4294967296 := by norm_num
    rw [hpow] at e
    have e2 : @Eq Nat host.generation ((host.generation + 1) % 4294967296) := e
    generalize host.generation = g at e2
    omega
  · simp [is_stale, refresh]

/-- C10 at a concrete input: the sample host at generation 7 and its refreshed mirror. -/
theorem staleness_detection_witness :
    is_stale sample_sequence_mirror (increment_generation sample_sequence_host) = true ∧
    (refresh (increment_generation sample_sequence_host) sample_sequence_mirror).generation
      = (increment_generation sample_sequence_host).generation ∧
    is_stale (refresh (increment_generation sample_sequence_host) sample_sequence_mirror)
      (increment_generation sample_sequence_host) = false :=
  staleness_detection sample_sequence_host sample_sequence_mirror (by decide)

end sequence_data_storage

/-! ## The bit-packed vector: pack and get -/

namespace packed_vector

/-- On values below `2^W`, a packed word is the number with the chunk as its digits in base
`2^W`, least significant first. -/
theorem pack_word_cons (W v : Nat) (vs : List Nat) (hv : v < 2 ^ W) :
    pack_word W (v :: vs) = 2 ^ W * pack_word W vs + v := by
  show v ||| (pack_word W vs <<< W) = 2 ^ W * pack_word W vs + v
  rw [Nat.mul_add_lt_is_or hv, Nat.shiftLeft_eq, Nat.or_comm, Nat.mul_comm]

/-- Shifting a packed word right by `k * W` bits and masking `W` bits gives the `k`-th value
of the chunk. -/
theorem pack_word_digit (W : Nat) (L : List Nat) (hL : ∀ v ∈ L, v < 2 ^ W) (k : Nat)
    (hk : k < L.length) :
    (pack_word W L >>> (k * W)) &&& (2 ^ W - 1) = L[k] := by
  induction L generalizing k with
  | nil => simp at hk
  | cons v vs ih =>
    have hv : v < 2 ^ W := hL v (List.mem_cons_self v vs)
    have hvs : ∀ x ∈ vs, x < 2 ^ W := fun x hx => hL x (List.mem_cons_of_mem v hx)
    have hpos : 0 < 2 ^ W := Nat.pos_of_ne_zero (by positivity)
    rw [pack_word_cons W v vs hv]
    cases k with
    | zero =>
      simp only [Nat.zero_mul, Nat.shiftRight_zero, Nat.and_pow_two_sub_one_eq_mod,
        List.getElem_cons_zero]
      rw [Nat.mul_add_mod, Nat.mod_eq_of_lt hv]
    | succ k =>
      have hk2 : k < vs.length := by simpa using hk
      have e : (2 ^ W * pack_word W vs + v) >>> ((k + 1) * W) = pack_word W vs >>> (k * W) := by
        rw [Nat.shiftRight_eq_div_pow, Nat.shiftRight_eq_div_pow, Nat.add_mul, Nat.one_mul,
          Nat.add_comm (k * W) W, Nat.pow_add, ← Nat.div_div_eq_div_mul,
          Nat.mul_add_div hpos, Nat.div_eq_of_lt hv, Nat.add_zero]
      rw [e, ih hvs k hk2]
      simp only [List.getElem_cons_succ]

/-- The round trip for a width `W` that divides the word: `per * W = wordbits`. -/
theorem get_pack_of_dvd (W per : Nat) (hW : 0 < W) (hper : per * W = wordbits)
    (values : List Nat) (hv : ∀ v ∈ values, v < 2 ^ W) (i : Nat) (hi : i < values.length) :
    get W (pack W values) i = some values[i] := by
  have hpp : 0 < per := by
    rcases Nat.eq_zero_or_pos per with h0 | h0
    · rw [h0, Nat.zero_mul] at hper
      exact absurd hper (by decide)
    · exact h0
  have hdiv : wordbits / W = per := by
    rw [← hper]
    exact Nat.mul_div_cancel per hW
  have hword : i * W / wordbits = i / per := by
    rw [← hper]
    exact Nat.mul_div_mul_right i per hW
  have hshift : i * W % wordbits = i % per * W := by
    rw [← hper]
    exact Nat.mul_mod_mul_right W i per
  have hwords : i / per < (values.length * W + wordbits - 1) / wordbits := by
    have h1 : i * W < values.length * W := Nat.mul_lt_mul_of_pos_right hi hW
    rw [← hword]
    have hwb : wordbits = 32 := rfl
    rw [hwb]
    omega
  have hmod : i % per < per := Nat.mod_lt i hpp
  have hsum : i / per * per + i % per = i := by
    rw [Nat.mul_comm]
    exact Nat.div_add_mod i per
  have hlen : i % per < ((values.drop (i / per * per)).take per).length := by
    rw [List.length_take, List.length_drop]
    omega
  unfold get pack
  simp only [hi, if_true, hdiv, hword, hshift]
  rw [List.getElem?_map, List.getElem?_range hwords, Option.map_some', Option.map_some',
    pack_word_digit W _ (fun v hvm => hv v (List.mem_of_mem_drop (List.mem_of_mem_take hvm)))
      (i % per) hlen]
  simp only [List.getElem_take, List.getElem_drop, hsum]

/-- C11: the pack/unpack round trip of the bit-packed vector: for every width `W` among 1,
2, 4 and 8 and every sequence of values below `2^W`, `get(i)` on the packed buffer of the
sequence is `values[i]`, for every index `i` below the length of the sequence. -/
theorem get_pack_round_trip (W : Nat) (hW : W = 1 ∨ W = 2 ∨ W = 4 ∨ W = 8)
    (values : List Nat) (hv : ∀ v ∈ values, v < 2 ^ W) (i : Nat) (hi : i < values.length) :
    get W (pack W values) i = some values[i] := by
  rcases hW with h | h | h | h
  · subst h
    exact get_pack_of_dvd 1 32 (by decide) rfl values hv i hi
  · subst h
    exact get_pack_of_dvd 2 16 (by decide) rfl values hv i hi
  · subst h
    exact get_pack_of_dvd 4 8 (by decide) rfl values hv i hi
  · subst h
    exact get_pack_of_dvd 8 4 (by decide) rfl values hv i hi

/-- C11 at a concrete input: eleven 4-bit values, which fill one word and part of a second;
the value at index 9 is in the second word. -/
theorem get_pack_round_trip_witness :
    get 4 (pack 4 [1, 2, 3, 4, 5, 6, 7, 8, 9, 10, 11]) 9 = some 10 :=
  get_pack_round_trip 4 (by decide) [1, 2, 3, 4, 5, 6, 7, 8, 9, 10, 11] (by decide) 9
    (by decide)

end packed_vector

/-! ## Alignment batch: `download` is driven by the host alone -/

namespace alignment_batch_device

variable {cigar_op : Type}

/-- C12: `download` is mask-driven, not diff-based: the mirror it leaves depends on the
host batch alone. For every host batch and any two mirrors before the call, the two
mirrors after `download` are identical in every member. -/
theorem download_independent_of_prior (K : AlignmentDataMask)
    (host : alignment_batch_host cigar_op) (m1 m2 : alignment_batch_device cigar_op) :
    download K host m1 = download K host m2 := by
  rw [download_eq K host m1, download_eq K host m2]

/-- C13: no partial population of a group of three vectors: after `download`, for each of
the groups CIGAR, READS and QUALITIES, either all three mirror vectors are those of the
host or all three are empty. -/
theorem download_no_partial_group (K : AlignmentDataMask)
    (host : alignment_batch_host cigar_op) (d : alignment_batch_device cigar_op) :
    (((download K host d).cigars = host.cigars ∧
      (download K host d).cigar_start = host.cigar_start ∧
      (download K host d).cigar_len = host.cigar_len) ∨
     ((download K host d).cigars = [] ∧
      (download K host d).cigar_start = [] ∧
      (download K host d).cigar_len = [])) ∧
    (((download K host d).reads = host.reads ∧
      (download K host d).read_start = host.read_start ∧
      (download K host d).read_len = host.read_len) ∨
     ((download K host d).reads = packed_vector.clear ∧
      (download K host d).read_start = [] ∧
      (download K host d).read_len = [])) ∧
    (((download K host d).qualities = host.qualities ∧
      (download K host d).qual_start = host.qual_start ∧
      (download K host d).qual_len = host.qual_len) ∨
     ((download K host d).qualities = [] ∧
      (download K host d).qual_start = [] ∧
      (download K host d).qual_len = [])) := by
  rw [download_eq]
  dsimp only
  refine ⟨?_, ?_, ?_⟩
  · by_cases c : host.data_mask &&& K.CIGAR ≠ 0
    · exact Or.inl (by simp only [if_pos c, and_self])
    · exact Or.inr (by simp only [if_neg c, and_self])
  · by_cases c : host.data_mask &&& K.READS ≠ 0
    · exact Or.inl (by simp only [if_pos c, and_self])
    · exact Or.inr (by simp only [if_neg c, and_self])
  · by_cases c : host.data_mask &&& K.QUALITIES ≠ 0
    · exact Or.inl (by simp only [if_pos c, and_self])
    · exact Or.inr (by simp only [if_neg c, and_self])

/-- C14: `download` preserves the range invariant of the offset vectors: if
`start[i] + len[i] <= size` holds in the host batch for every index of the CIGAR, READS and
QUALITIES offsets, it holds in the mirror after `download`, for every mask. -/
theorem download_preserves_range_invariant (K : AlignmentDataMask)
    (host : alignment_batch_host cigar_op) (d : alignment_batch_device cigar_op)
    (h : range_invariant host) : range_invariant (download K host d) := by
  unfold range_invariant at h ⊢
  rw [download_eq]
  dsimp only
  obtain ⟨hc, hr, hq⟩ := h
  refine ⟨?_, ?_, ?_⟩
  · by_cases c : host.data_mask &&& K.CIGAR ≠ 0
    · simp only [if_pos c]
      exact hc
    · simp only [if_neg c]
      intro p hp
      simp at hp
  · by_cases c : host.data_mask &&& K.READS ≠ 0
    · simp only [if_pos c]
      exact hr
    · simp only [if_neg c]
      intro p hp
      simp at hp
  · by_cases c : host.data_mask &&& K.QUALITIES ≠ 0
    · simp only [if_pos c]
      exact hq
    · simp only [if_neg c]
      intro p hp
      simp at hp

/-- C14 at a concrete input: the two-record host with the bits of CIGAR and READS, whose
offsets are within its shared vectors. -/
theorem download_preserves_range_invariant_witness :
    range_invariant (scenario_host 0x180) ∧
    range_invariant (download sample_mask (scenario_host 0x180) cigar_only_host) :=
  ⟨by decide,
   download_preserves_range_invariant sample_mask (scenario_host 0x180) cigar_only_host
     (by decide)⟩

/-- C16: the two CRQ accessors agree: for every storage and every `read_id`, `crq_index`
on the view converted from the storage is `crq_index` on the storage itself, defined for
the same `read_id`s and with the same descriptor. -/
theorem crq_index_view_agrees (d : alignment_batch_device cigar_op) (read_id : uint32) :
    const_view.crq_index (to_const_view d) read_id = crq_index d read_id :=
  rfl

/-- C17: field groups are independent under `download`: for any two host batches that
agree on the mask bit of one group and on the vectors of that group, the mirror vectors of
that group after `download` are equal, whatever else the two hosts and the two mirrors
before the call hold. -/
theorem download_group_independent (K : AlignmentDataMask)
    (h1 h2 : alignment_batch_host cigar_op) (d1 d2 : alignment_batch_device cigar_op) :
    ((h1.data_mask &&& K.CHROMOSOME ≠ 0 ↔ h2.data_mask &&& K.CHROMOSOME ≠ 0) →
      h1.chromosome = h2.chromosome →
      (download K h1 d1).chromosome = (download K h2 d2).chromosome) ∧
    ((h1.data_mask &&& K.ALIGNMENT_START ≠ 0 ↔ h2.data_mask &&& K.ALIGNMENT_START ≠ 0) →
      h1.alignment_start = h2.alignment_start →
      (download K h1 d1).alignment_start = (download K h2 d2).alignment_start) ∧
    ((h1.data_mask &&& K.ALIGNMENT_STOP ≠ 0 ↔ h2.data_mask &&& K.ALIGNMENT_STOP ≠ 0) →
      h1.alignment_stop = h2.alignment_stop →
      (download K h1 d1).alignment_stop = (download K h2 d2).alignment_stop) ∧
    ((h1.data_mask &&& K.MATE_CHROMOSOME ≠ 0 ↔ h2.data_mask &&& K.MATE_CHROMOSOME ≠ 0) →
      h1.mate_chromosome = h2.mate_chromosome →
      (download K h1 d1).mate_chromosome = (download K h2 d2).mate_chromosome) ∧
    ((h1.data_mask &&& K.MATE_ALIGNMENT_START ≠ 0 ↔ h2.data_mask &&& K.MATE_ALIGNMENT_START ≠ 0) →
      h1.mate_alignment_start = h2.mate_alignment_start →
      (download K h1 d1).mate_alignment_start = (download K h2 d2).mate_alignment_start) ∧
    ((h1.data_mask &&& K.INFERRED_INSERT_SIZE ≠ 0 ↔ h2.data_mask &&& K.INFERRED_INSERT_SIZE ≠ 0) →
      h1.inferred_insert_size = h2.inferred_insert_size →
      (download K h1 d1).inferred_insert_size = (download K h2 d2).inferred_insert_size) ∧
    ((h1.data_mask &&& K.CIGAR ≠ 0 ↔ h2.data_mask &&& K.CIGAR ≠ 0) →
      h1.cigars = h2.cigars → h1.cigar_start = h2.cigar_start → h1.cigar_len = h2.cigar_len →
      (download K h1 d1).cigars = (download K h2 d2).cigars ∧
      (download K h1 d1).cigar_start = (download K h2 d2).cigar_start ∧
      (download K h1 d1).cigar_len = (download K h2 d2).cigar_len) ∧
    ((h1.data_mask &&& K.READS ≠ 0 ↔ h2.data_mask &&& K.READS ≠ 0) →
      h1.reads = h2.reads → h1.read_start = h2.read_start → h1.read_len = h2.read_len →
      (download K h1 d1).reads = (download K h2 d2).reads ∧
      (download K h1 d1).read_start = (download K h2 d2).read_start ∧
      (download K h1 d1).read_len = (download K h2 d2).read_len) ∧
    ((h1.data_mask &&& K.QUALITIES ≠ 0 ↔ h2.data_mask &&& K.QUALITIES ≠ 0) →
      h1.qualities = h2.qualities → h1.qual_start = h2.qual_start → h1.qual_len = h2.qual_len →
      (download K h1 d1).qualities = (download K h2 d2).qualities ∧
      (download K h1 d1).qual_start = (download K h2 d2).qual_start ∧
      (download K h1 d1).qual_len = (download K h2 d2).qual_len) ∧
    ((h1.data_mask &&& K.FLAGS ≠ 0 ↔ h2.data_mask &&& K.FLAGS ≠ 0) →
      h1.flags = h2.flags →
      (download K h1 d1).flags = (download K h2 d2).flags) ∧
    ((h1.data_mask &&& K.MAPQ ≠ 0 ↔ h2.data_mask &&& K.MAPQ ≠ 0) →
      h1.mapq = h2.mapq →
      (download K h1 d1).mapq = (download K h2 d2).mapq) ∧
    ((h1.data_mask &&& K.READ_GROUP ≠ 0 ↔ h2.data_mask &&& K.READ_GROUP ≠ 0) →
      h1.read_group = h2.read_group →
      (download K h1 d1).read_group = (download K h2 d2).read_group) := by
  rw [download_eq K h1 d1, download_eq K h2 d2]
  dsimp only
  refine ⟨?_, ?_, ?_, ?_, ?_, ?_, ?_, ?_, ?_, ?_, ?_, ?_⟩
  · intro hb e0
    simp only [hb, e0, and_self]
  · intro hb e0
    simp only [hb, e0, and_self]
  · intro hb e0
    simp only [hb, e0, and_self]
  · intro hb e0
    simp only [hb, e0, and_self]
  · intro hb e0
    simp only [hb, e0, and_self]
  · intro hb e0
    simp only [hb, e0, and_self]
  · intro hb e0 e1 e2
    simp only [hb, e0, e1, e2, and_self]
  · intro hb e0 e1 e2
    simp only [hb, e0, e1, e2, and_self]
  · intro hb e0 e1 e2
    simp only [hb, e0, e1, e2, and_self]
  · intro hb e0
    simp only [hb, e0, and_self]
  · intro hb e0
    simp only [hb, e0, and_self]
  · intro hb e0
    simp only [hb, e0, and_self]

/-- C17 at a concrete input: the host that holds CIGAR data only and the fully populated
host with the bits of CIGAR and READS agree on the CIGAR group and on nothing else. -/
theorem download_group_independent_witness :
    (download sample_mask cigar_only_host (scenario_host all_groups)).cigars =
      (download sample_mask (scenario_host 0x180) cigar_only_host).cigars ∧
    (download sample_mask cigar_only_host (scenario_host all_groups)).cigar_start =
      (download sample_mask (scenario_host 0x180) cigar_only_host).cigar_start ∧
    (download sample_mask cigar_only_host (scenario_host all_groups)).cigar_len =
      (download sample_mask (scenario_host 0x180) cigar_only_host).cigar_len :=
  (download_group_independent sample_mask cigar_only_host (scenario_host 0x180)
    (scenario_host all_groups) cigar_only_host).2.2.2.2.2.2.1 (by decide) rfl rfl rfl

end alignment_batch_device

/-! ## The view of the sequence data is a projection -/

namespace sequence_data_storage

/-- C15: the view converted from a `sequence_data_storage` carries the `data_mask` and
`num_sequences` of the storage, and each of its seven vector members is the vector of the
same name of the storage; the view does not depend on the generation counter. -/
theorem to_const_view_faithful_sequence (s : sequence_data_storage) (g : uint32) :
    (to_const_view s).data_mask = s.data_mask ∧
    (to_const_view s).num_sequences = s.num_sequences ∧
    (to_const_view s).bases = s.bases ∧
    (to_const_view s).qualities = s.qualities ∧
    (to_const_view s).sequence_id = s.sequence_id ∧
    (to_const_view s).sequence_bp_start = s.sequence_bp_start ∧
    (to_const_view s).sequence_bp_len = s.sequence_bp_len ∧
    (to_const_view s).sequence_qual_start = s.sequence_qual_start ∧
    (to_const_view s).sequence_qual_len = s.sequence_qual_len ∧
    to_const_view { s with generation := g } = to_const_view s :=
  ⟨rfl, rfl, rfl, rfl, rfl, rfl, rfl, rfl, rfl, rfl⟩

end sequence_data_storage

/-! ## The alignment batch wrapper -/

/-- C18: for every host batch `h`, after `alignment_batch::download` with a pointer to `h`
the host handle of the wrapper refers to `h`, as it was, and the device mirror of the
wrapper is the result of `alignment_batch_device::download(h)` on the mirror the wrapper
had before. -/
theorem alignment_batch_download_effect {cigar_op : Type} (K : AlignmentDataMask)
    (h : alignment_batch_host cigar_op) (w : alignment_batch cigar_op) :
    ∃ w2 : alignment_batch cigar_op,
      alignment_batch.download K (some h) w = some w2 ∧
      w2.host = some h ∧
      w2.device = alignment_batch_device.download K h w.device :=
  ⟨_, rfl, rfl, rfl⟩

end firepony
